import Mathlib

/-!
# Verification of the ti-bootloader SBI driver core

Shallow embedding of the `ti-sbl` Rust library (`src/lib.rs`, `src/family.rs`,
`src/constants.rs`, `src/util.rs`) and of the CLI flash orchestrator
(`prog-cli/src/flash.rs`).

Modelling conventions:

* Bytes and machine integers (`u8`, `u32`, `usize`) are `Nat`.  Parameters that
  are `u32`/`usize` in Rust are constrained to `< 2 ^ 32` by theorem
  hypotheses where the bound matters.  Arithmetic follows Rust's checked
  (debug-profile) semantics: where an overflow or underflow of a `u32`/`usize`
  operation is reachable, the embedding returns an explicit `Failure.panic`
  (`attempt to subtract with overflow`, etc.), mirroring the Rust panic.
* The serial transport is a `Port` record: a read timeout (in milliseconds), the
  list of bytes written so far, a flag telling whether all written bytes have
  been flushed, and a script `inbound` of single-byte read outcomes (a byte, a
  read timeout, an end of stream, or another read error).  The 1-second
  deadline of the ACK hunt is modelled as exhaustion of the `inbound` script.
* A `Device` additionally carries a ghost trace `cmds` of the command packets
  emitted so far, as `(opcode, payload)` pairs; this is a structured view of a
  subsequence of `Port.written` used to state which SBI commands were issued.
* Fallible operations return `Except Failure`, with `Failure.err` for Rust
  `io::Error` returns and `Failure.panic` for Rust panics and failed
  assertions.  Stateful operations have type `Device → Except Failure α ×
  Device`, so the device state (and hence the trace of commands already sent on
  the wire) survives a failure.
* `format!` messages are embedded keeping the literal template text and the
  spliced status-code mnemonic; purely numeric interpolations are elided.
-/

/-- The device family (`Family` in `src/family.rs`). -/
inductive Family
  | CC2538
  | CC26X0
  | CC26X2
deriving DecidableEq, Repr

namespace Family

/-- `Family::supports_erase`: whole-range erase, CC2538 only. -/
def supports_erase : Family → Bool
  | CC2538 => true
  | _ => false

/-- `Family::supports_sector_erase`: CC26X0 and CC26X2 only. -/
def supports_sector_erase : Family → Bool
  | CC2538 => false
  | _ => true

/-- `Family::supports_set_xosc`: CC2538 only. -/
def supports_set_xosc : Family → Bool
  | CC2538 => true
  | _ => false

/-- `Family::sector_size` in bytes. -/
def sector_size : Family → Nat
  | CC2538 => 2048
  | CC26X0 => 4092
  | CC26X2 => 8192

/-- `Family::flash_base`. -/
def flash_base : Family → Nat
  | CC2538 => 0x00200000
  | _ => 0

/-- `Family::address_to_page` (`(address - flash_base) / sector_size`). -/
def address_to_page (f : Family) (address : Nat) : Nat :=
  (address - f.flash_base) / f.sector_size

end Family

/-- Outcome of one single-byte read on the serial port: a byte, a timed-out
read (`io::ErrorKind::TimedOut`), an `Ok(0)` end-of-stream, or another read
error. -/
inductive Rx
  | byte (b : Nat)
  | timedOut
  | eof
  | readErr
deriving DecidableEq, Repr

/-- Failures: `err` embeds a returned `io::Error`, `panic` a Rust panic or
failed assertion. -/
inductive Failure
  | err (msg : String)
  | panic (msg : String)
deriving DecidableEq, Repr

/-- The serial transport state. `timeout_ms` is the configured read timeout;
`written` the bytes written so far; `flushed` whether all written bytes have
been flushed; `inbound` the script of pending read outcomes. -/
structure Port where
  timeout_ms : Nat
  written : List Nat
  flushed : Bool
  inbound : List Rx
deriving DecidableEq, Repr

/-- `SerialPort::set_timeout` (used by the CLI in `prog-cli/src/main.rs`,
not by `Device`). -/
def Port.set_timeout (ms : Nat) (p : Port) : Port :=
  { p with timeout_ms := ms }

/-- `Write::write_all`: append the bytes; the data is now unflushed. -/
def Port.write_all (bs : List Nat) (p : Port) : Port :=
  { p with written := p.written ++ bs, flushed := false }

/-- `Write::flush`. -/
def Port.flush (p : Port) : Port :=
  { p with flushed := true }

/-- A device handle: the chosen family, the owned port, and the ghost trace of
command packets issued so far (opcode, payload). -/
structure Device where
  family : Family
  port : Port
  cmds : List (Nat × List Nat)
deriving DecidableEq, Repr

/-- A stateful, fallible device action.  The updated device is returned even on
failure, so the wire-visible effects before the failure are observable. -/
def DevAct (α : Type) : Type := Device → Except Failure α × Device

/-- Protocol constants (`src/constants.rs`). -/
def CMD_PING : Nat := 0x20
def CMD_DOWNLOAD : Nat := 0x21
def CMD_GET_STATUS : Nat := 0x23
def CMD_SEND_DATA : Nat := 0x24
def CC2538_CMD_ERASE : Nat := 0x26
def CC26X0_CMD_SECTOR_ERASE : Nat := 0x26
def CMD_GET_CHIP_ID : Nat := 0x28
def CC2538_CMD_SET_XOSC : Nat := 0x29
def CMD_MEMORY_READ : Nat := 0x2A
def ACK : Nat := 0xCC
def NACK : Nat := 0x33
def MAX_BYTES_PER_TRANSFER : Nat := 252
def COMMAND_RET_SUCCESS : Nat := 0x40
def COMMAND_RET_UNKNOWN_CMD : Nat := 0x41
def COMMAND_RET_INVALID_CMD : Nat := 0x42
def COMMAND_RET_INVALID_ADR : Nat := 0x43
def COMMAND_RET_FLASH_FAIL : Nat := 0x44

/-- Big-endian encoding of a `u32` (`u32::to_be_bytes`). -/
def be4 (n : Nat) : List Nat :=
  [n / 2 ^ 24 % 256, n / 2 ^ 16 % 256, n / 2 ^ 8 % 256, n % 256]

/-- Big-endian decoding of 4 bytes (`u32::from_be_bytes`). -/
def u32be : List Nat → Nat
  | [a, b, c, d] => ((a * 256 + b) * 256 + c) * 256 + d
  | _ => 0

/-- Little-endian decoding of 4 bytes (`u32::from_le_bytes`). -/
def u32le : List Nat → Nat
  | [a, b, c, d] => ((d * 256 + c) * 256 + b) * 256 + a
  | _ => 0

/-- `command_checksum` (`src/lib.rs`): 8-bit wrap-around sum of the command
byte and the payload bytes. -/
def command_checksum (cmd : Nat) (data : List Nat) : Nat :=
  data.foldl (fun checksum byte => (checksum + byte) % 256) cmd

/-- `Device::write_cmd`: emit `[len, checksum, cmd] ++ data` and flush.  A
packet longer than 255 bytes is a programming error (panic). -/
def write_cmd (cmd : Nat) (data : List Nat) : DevAct Unit := fun d =>
  let pkt_len := 3 + data.length
  if 255 < pkt_len then
    (.error (.panic "packet too big"), d)
  else
    (.ok (),
      { d with
        port := (d.port.write_all (pkt_len :: command_checksum cmd data :: cmd :: data)).flush,
        cmds := d.cmds ++ [(cmd, data)] })

/-- The rolling-window loop of `Device::read_ack`.  `prev`/`last` are the last
two bytes of the `ack` buffer (initially `0xFF, 0xFF`); timed-out reads are
transient; the 1-second deadline is modelled as exhaustion of the script.
Returns the ACK flag and the unconsumed script. -/
def readAckLoop : Nat → Nat → List Rx → Except Failure Bool × List Rx
  | _, _, [] => (.error (.err "ACK bytes not found, timed out"), [])
  | _, _, Rx.eof :: rest => (.error (.err "unexpected EOF"), rest)
  | _, _, Rx.readErr :: rest => (.error (.err "read failed"), rest)
  | prev, last, Rx.timedOut :: rest => readAckLoop prev last rest
  | _, last, Rx.byte b :: rest =>
    if last == 0 && (b == ACK || b == NACK) then (.ok (b == ACK), rest)
    else readAckLoop last b rest

/-- `Device::read_ack`. -/
def read_ack : DevAct Bool := fun d =>
  match readAckLoop 0xFF 0xFF d.port.inbound with
  | (.ok a, rest) => (.ok a, { d with port := { d.port with inbound := rest } })
  | (.error e, rest) => (.error e, { d with port := { d.port with inbound := rest } })

/-- `Device::write_ack`: emit `[0x00, ACK]` or `[0x00, NACK]` and flush. -/
def write_ack (a : Bool) : DevAct Unit := fun d =>
  (.ok (), { d with port := (d.port.write_all [0, if a then ACK else NACK]).flush })

/-- `Read::read_exact` over the script: `n` bytes or a failure. -/
def readExact : Nat → List Rx → Except Failure (List Nat) × List Rx
  | 0, rs => (.ok [], rs)
  | _ + 1, [] => (.error (.err "failed to fill whole buffer"), [])
  | n + 1, Rx.byte b :: rest =>
    match readExact n rest with
    | (.ok bs, rs) => (.ok (b :: bs), rs)
    | (.error e, rs) => (.error e, rs)
  | _ + 1, Rx.timedOut :: rest => (.error (.err "read timed out"), rest)
  | _ + 1, Rx.eof :: rest => (.error (.err "failed to fill whole buffer"), rest)
  | _ + 1, Rx.readErr :: rest => (.error (.err "read failed"), rest)

/-- `Device::read_response` for a caller buffer of length `respLen`: read the
two-byte header `[total_len, cksum]`, compute `payload_len = total_len - 2`
with unchecked unsigned subtraction (modelled as a panic on underflow,
following Rust's checked arithmetic), reject a buffer/payload length mismatch,
then read the payload. -/
def read_response (respLen : Nat) : DevAct (List Nat) := fun d =>
  match readExact 2 d.port.inbound with
  | (.error e, rs) => (.error e, { d with port := { d.port with inbound := rs } })
  | (.ok (h0 :: _ :: _), rs) =>
    let d := { d with port := { d.port with inbound := rs } }
    if h0 < 2 then
      (.error (.panic "attempt to subtract with overflow"), d)
    else
      let payload_len := h0 - 2
      if payload_len < respLen then
        (.error (.err "received response is too small"), d)
      else if respLen < payload_len then
        (.error (.err "received response is too big"), d)
      else
        match readExact respLen d.port.inbound with
        | (.ok bs, rs') => (.ok bs, { d with port := { d.port with inbound := rs' } })
        | (.error e, rs') => (.error e, { d with port := { d.port with inbound := rs' } })
  | (.ok _, rs) =>
    -- unreachable: `readExact 2` returns exactly two bytes on success
    (.error (.err "short header"), { d with port := { d.port with inbound := rs } })

/-- `Device::ping`. -/
def ping : DevAct Bool := fun d =>
  match write_cmd CMD_PING [] d with
  | (.error e, d') => (.error e, d')
  | (.ok _, d') => read_ack d'

/-- `Device::download`: payload is `addr_be(4) ++ size_be(4)`; a NACK is a
failure. -/
def download (program_address program_size : Nat) : DevAct Unit := fun d =>
  match write_cmd CMD_DOWNLOAD (be4 program_address ++ be4 program_size) d with
  | (.error e, d') => (.error e, d')
  | (.ok _, d') =>
    match read_ack d' with
    | (.error e, d'') => (.error e, d'')
    | (.ok ack, d'') =>
      if !ack then (.error (.err "COMMAND_DOWNLOAD not acknowledged"), d'')
      else (.ok (), d'')

/-- `Device::get_status`: NACK is a failure; reads a 1-byte response and sends
an ACK back. -/
def get_status : DevAct Nat := fun d =>
  match write_cmd CMD_GET_STATUS [] d with
  | (.error e, d') => (.error e, d')
  | (.ok _, d') =>
    match read_ack d' with
    | (.error e, d'') => (.error e, d'')
    | (.ok ack, d'') =>
      if !ack then (.error (.err "COMMAND_GET_STATUS not acknowledged"), d'')
      else
        match read_response 1 d'' with
        | (.error e, d3) => (.error e, d3)
        | (.ok resp, d3) =>
          match write_ack true d3 with
          | (.error e, d4) => (.error e, d4)
          | (.ok _, d4) => (.ok (resp.headD 0), d4)

/-- `Device::send_data`: panics on a payload over 252 bytes; returns the ACK
flag (a NACK is *not* an error, the caller may retransmit). -/
def send_data (data : List Nat) : DevAct Bool := fun d =>
  if MAX_BYTES_PER_TRANSFER < data.length then
    (.error (.panic "assertion failed: data length above MAX_BYTES_PER_TRANSFER"), d)
  else
    match write_cmd CMD_SEND_DATA data d with
    | (.error e, d') => (.error e, d')
    | (.ok _, d') => read_ack d'

/-- `Device::get_chip_id`: NACK is a failure; reads a 4-byte big-endian
response and sends an ACK back. -/
def get_chip_id : DevAct Nat := fun d =>
  match write_cmd CMD_GET_CHIP_ID [] d with
  | (.error e, d') => (.error e, d')
  | (.ok _, d') =>
    match read_ack d' with
    | (.error e, d'') => (.error e, d'')
    | (.ok ack, d'') =>
      if !ack then (.error (.err "bootloader did not acknowledge the command"), d'')
      else
        match read_response 4 d'' with
        | (.error e, d3) => (.error e, d3)
        | (.ok resp, d3) =>
          match write_ack true d3 with
          | (.error e, d4) => (.error e, d4)
          | (.ok _, d4) => (.ok (u32be resp), d4)

/-- `Device::erase` (CC2538 only; panics on other families): payload is
`addr_be(4) ++ bytecount_be(4)`; a NACK is a failure. -/
def erase (address byte_count : Nat) : DevAct Unit := fun d =>
  if !d.family.supports_erase then
    (.error (.panic "COMMAND_ERASE is not supported"), d)
  else
    match write_cmd CC2538_CMD_ERASE (be4 address ++ be4 byte_count) d with
    | (.error e, d') => (.error e, d')
    | (.ok _, d') =>
      match read_ack d' with
      | (.error e, d'') => (.error e, d'')
      | (.ok ack, d'') =>
        if !ack then (.error (.err "failed to erase"), d'')
        else (.ok (), d'')

/-- `Device::sector_erase` (CC26xx only; panics on other families and on a
sector-misaligned address): payload is `addr_be(4)`; a NACK is a failure. -/
def sector_erase (address : Nat) : DevAct Unit := fun d =>
  if !d.family.supports_sector_erase then
    (.error (.panic "COMMAND_SECTOR_ERASE is not supported"), d)
  else if address % d.family.sector_size != 0 then
    (.error (.panic "invalid sector address"), d)
  else
    match write_cmd CC26X0_CMD_SECTOR_ERASE (be4 address) d with
    | (.error e, d') => (.error e, d')
    | (.ok _, d') =>
      match read_ack d' with
      | (.error e, d'') => (.error e, d'')
      | (.ok ack, d'') =>
        if !ack then (.error (.err "failed to erase sector"), d'')
        else (.ok (), d'')

/-- `Device::set_xosc` (CC2538 only; panics on other families); a NACK is a
failure. -/
def set_xosc : DevAct Unit := fun d =>
  if !d.family.supports_set_xosc then
    (.error (.panic "XOSC switch is not supported"), d)
  else
    match write_cmd CC2538_CMD_SET_XOSC [] d with
    | (.error e, d') => (.error e, d')
    | (.ok _, d') =>
      match read_ack d' with
      | (.error e, d'') => (.error e, d'')
      | (.ok ack, d'') =>
        if !ack then (.error (.err "failed to switch to xosc"), d'')
        else (.ok (), d'')

/-- `Device::memory_read_32` for a caller buffer of `len` bytes: panics on
CC2538, on a buffer longer than `63 * 4` bytes, on a buffer length not
divisible by 4, and on an unaligned address; payload is
`addr_be(4) ++ [1, len / 4]`; a NACK is a failure; reads a `len`-byte response
and sends an ACK back. -/
def memory_read_32 (address len : Nat) : DevAct (List Nat) := fun d =>
  if d.family = Family.CC2538 then
    (.error (.panic "32-bit memory accesses are only allowed on CC26xx"), d)
  else if 63 * 4 < len then
    (.error (.panic "only a maximum of 63 accesses can be done on word mode"), d)
  else if len % 4 != 0 then
    (.error (.panic "number of bytes is not divisible from 4"), d)
  else if address % 4 != 0 then
    (.error (.panic "memory address must be 32-bits aligned"), d)
  else
    match write_cmd CMD_MEMORY_READ (be4 address ++ [1, len / 4]) d with
    | (.error e, d') => (.error e, d')
    | (.ok _, d') =>
      match read_ack d' with
      | (.error e, d'') => (.error e, d'')
      | (.ok ack, d'') =>
        if !ack then (.error (.err "failed to read memory"), d'')
        else
          match read_response len d'' with
          | (.error e, d3) => (.error e, d3)
          | (.ok resp, d3) =>
            match write_ack true d3 with
            | (.error e, d4) => (.error e, d4)
            | (.ok _, d4) => (.ok resp, d4)

/-- `Device::perform_auto_baud`: write `0x55 0x55` (no flush in the source) and
read an ACK; a NACK or a failed read is a `NotConnected` failure. -/
def perform_auto_baud : DevAct Unit := fun d =>
  let d := { d with port := d.port.write_all [0x55, 0x55] }
  match read_ack d with
  | (.error e, d') => (.error e, d')
  | (.ok ack, d') =>
    if !ack then (.error (.err "could not synchronize bootloader baudrate"), d')
    else (.ok (), d')

/-- `Device::init_communications`: send a dummy command `0x00` and try to read
an ACK; on *any* ACK-read failure fall back to auto-baud (note: a NACK is a
successful read here, so it does not trigger auto-baud). -/
def init_communications : DevAct Unit := fun d =>
  match write_cmd 0 [] d with
  | (.error e, d') => (.error e, d')
  | (.ok _, d') =>
    match read_ack d' with
    | (.ok _, d'') => (.ok (), d'')
    | (.error _, d'') => perform_auto_baud d''

/-- `Device::new`: take ownership of the port, record the family, and run
communications init.  The source sets no transport timeout here (the CLI sets
200 ms on the port before calling `Device::new`). -/
def Device.new (p : Port) (family : Family) : Except Failure Device :=
  match init_communications { family := family, port := p, cmds := [] } with
  | (.ok _, d) => .ok d
  | (.error e, _) => .error e

/-! ## Utilities (`src/util.rs`) -/

/-- CC26xx CCFG size in bytes. -/
def CCFG_SIZE : Nat := 88

/-- `status_code_to_str`. -/
def status_code_to_str (ret : Nat) : String :=
  if ret = COMMAND_RET_SUCCESS then "COMMAND_RET_SUCCESS"
  else if ret = COMMAND_RET_UNKNOWN_CMD then "COMMAND_RET_UNKNOWN_CMD"
  else if ret = COMMAND_RET_INVALID_CMD then "COMMAND_RET_INVALID_CMD"
  else if ret = COMMAND_RET_INVALID_ADR then "COMMAND_RET_INVALID_ADR"
  else if ret = COMMAND_RET_FLASH_FAIL then "COMMAND_RET_FLASH_FAIL"
  else "Unknown"

/-- The sector loop of `erase_flash_range` (`for i in 0..sector_count`), with
the remaining iteration count as first argument and the current index `i` as
second: erase sector `start_address + i * sector_size` (a `u32` overflow of
that computation is a panic, per checked arithmetic), then check `GetStatus`;
a non-SUCCESS status aborts with the status-code mnemonic in the message. -/
def eraseSectors (start_address sector_size : Nat) :
    Nat → Nat → Device → Except Failure Unit × Device
  | 0, _, d => (.ok (), d)
  | n + 1, i, d =>
    if 2 ^ 32 ≤ start_address + i * sector_size then
      (.error (.panic "attempt to add with overflow"), d)
    else
      match sector_erase (start_address + i * sector_size) d with
      | (.error e, d') => (.error e, d')
      | (.ok _, d') =>
        match get_status d' with
        | (.error e, d'') => (.error e, d'')
        | (.ok ret, d'') =>
          if ret ≠ COMMAND_RET_SUCCESS then
            (.error (.err ("CMD_SECTOR_ERASE failed: `" ++ status_code_to_str ret ++ "`")), d'')
          else
            eraseSectors start_address sector_size n (i + 1) d''

/-- The sector count of `erase_flash_range`:
`byte_count / sector_size + (1 if byte_count % sector_size != 0 else 0)`. -/
def sectorCount (byte_count sector_size : Nat) : Nat :=
  if byte_count % sector_size != 0 then byte_count / sector_size + 1
  else byte_count / sector_size

/-- `erase_flash_range`: whole-range `Erase` on families that support it,
otherwise the `SectorErase`/`GetStatus` loop, otherwise unreachable. -/
def erase_flash_range (start_address byte_count : Nat) : DevAct Unit := fun d =>
  if d.family.supports_erase then
    erase start_address byte_count d
  else if d.family.supports_sector_erase then
    eraseSectors start_address d.family.sector_size
      (sectorCount byte_count d.family.sector_size) 0 d
  else
    (.error (.panic "internal error: entered unreachable code"), d)

/-- `Transfer` (`src/util.rs`): one contiguous flash-write segment. -/
structure Transfer where
  data : List Nat
  start_address : Nat
  expect_ack : Bool
deriving DecidableEq, Repr

/-- The chunk loop of `write_flash_range` (`while bytes_left > 0`).  The first
argument is fuel, consumed one unit per iteration; callers pass
`bytes_left` as fuel, which suffices because every iteration sends at least one
byte.  Each iteration sends `min 252 bytes_left` bytes from
`data[data_offset..]`; computing the chunk address `start_address +
data_offset` past `u32` is a panic (checked arithmetic).  On `expect_ack`, a
NACK aborts naming the chunk, and a non-SUCCESS `GetStatus` aborts with the
mnemonic; with `expect_ack` false both are ignored. -/
def sendChunks (t : Transfer) :
    Nat → Nat → Nat → Nat → Device → Except Failure Unit × Device
  | _, 0, _, _, d => (.ok (), d)
  | 0, _ + 1, _, _, d => (.error (.panic "loop fuel exhausted"), d)
  | fuel + 1, bl + 1, data_offset, chunk_index, d =>
    let bytes_left := bl + 1
    let bytes_in_transfer := min MAX_BYTES_PER_TRANSFER bytes_left
    let chunk := (t.data.drop data_offset).take bytes_in_transfer
    if 2 ^ 32 ≤ t.start_address + data_offset then
      (.error (.panic "attempt to add with overflow"), d)
    else
      match send_data chunk d with
      | (.error e, d') => (.error e, d')
      | (.ok ack, d') =>
        if t.expect_ack then
          if !ack then
            (.error (.err "Chunk not acknowledged"), d')
          else
            match get_status d' with
            | (.error e, d'') => (.error e, d'')
            | (.ok ret, d'') =>
              if ret ≠ COMMAND_RET_SUCCESS then
                (.error (.err ("CMD_SEND_DATA failed: `" ++ status_code_to_str ret ++ "`")), d'')
              else
                sendChunks t fuel (bytes_left - bytes_in_transfer)
                  (data_offset + bytes_in_transfer) (chunk_index + 1) d''
        else
          sendChunks t fuel (bytes_left - bytes_in_transfer)
            (data_offset + bytes_in_transfer) (chunk_index + 1) d'

/-- `write_flash_range`: for each transfer, `Download` (its size passes through
`try_into::<u32>().unwrap()`, a panic when the length exceeds `u32`), then
`GetStatus` (non-SUCCESS aborts with the mnemonic), then the chunk loop. -/
def write_flash_range : List Transfer → DevAct Unit
  | [], d => (.ok (), d)
  | t :: rest, d =>
    if 2 ^ 32 ≤ t.data.length then
      (.error (.panic "called unwrap on a None value"), d)
    else
      match download t.start_address t.data.length d with
      | (.error e, d') => (.error e, d')
      | (.ok _, d') =>
        match get_status d' with
        | (.error e, d'') => (.error e, d'')
        | (.ok ret, d'') =>
          if ret ≠ COMMAND_RET_SUCCESS then
            (.error (.err ("CMD_DOWNLOAD failed: `" ++ status_code_to_str ret ++ "`")), d'')
          else
            match sendChunks t t.data.length t.data.length 0 0 d'' with
            | (.error e, d3) => (.error e, d3)
            | (.ok _, d3) => write_flash_range rest d3

/-- `read_flash_size`: a 4-byte little-endian register read at
`FLASH_CTRL.DIECFG0` (CC2538) or `FLASH.FLASH_SIZE` (CC26xx), then the
family-specific decoding. -/
def read_flash_size : DevAct Nat := fun d =>
  let addr : Nat :=
    match d.family with
    | Family.CC2538 => 0x400D3014
    | _ => 0x4003002C
  match memory_read_32 addr 4 d with
  | (.error e, d') => (.error e, d')
  | (.ok reg, d') =>
    match d'.family with
    | Family.CC2538 =>
      let flash_size_code := u32le reg / 2 ^ 4 % 2 ^ 3
      let size : Nat :=
        if flash_size_code = 1 then 0x20000
        else if flash_size_code = 2 then 0x40000
        else if flash_size_code = 3 then 0x60000
        else if flash_size_code = 4 then 0x80000
        else 0x10000
      (.ok size, d')
    | _ =>
      (.ok (u32le reg % 256 * d'.family.sector_size), d')

/-- `read_ieee_address`: pick the primary address location by family, compute
the secondary location (on CC26xx via `read_flash_size(device) - CCFG_SIZE +
0x20`, whose `u32` subtraction panics on underflow per checked arithmetic),
then two 8-byte `MemoryRead32` reads: primary first, secondary second. -/
def read_ieee_address : DevAct (List Nat × List Nat) := fun d =>
  let primary_addr_offset : Nat :=
    match d.family with
    | Family.CC2538 => 0x00280028
    | _ => 0x000002F0
  let secondary : Except Failure Nat × Device :=
    match d.family with
    | Family.CC2538 => (.ok 0x0027FFCC, d)
    | _ =>
      match read_flash_size d with
      | (.error e, d') => (.error e, d')
      | (.ok fs, d') =>
        if fs < CCFG_SIZE then
          (.error (.panic "attempt to subtract with overflow"), d')
        else
          (.ok (fs - CCFG_SIZE + 0x20), d')
  match secondary with
  | (.error e, d') => (.error e, d')
  | (.ok secondary_addr_offset, d') =>
    match memory_read_32 primary_addr_offset 8 d' with
    | (.error e, d'') => (.error e, d'')
    | (.ok primary, d'') =>
      match memory_read_32 secondary_addr_offset 8 d'' with
      | (.error e, d3) => (.error e, d3)
      | (.ok secondary, d3) => (.ok (primary, secondary), d3)

/-! ## Flash orchestrator (`prog-cli/src/flash.rs`) -/

/-- `may_overwrite_ccfg`: `binary_end_addr >= ccfg_offset` with
`ccfg_offset = flash_size - CCFG_SIZE` and
`binary_end_addr = binary_offset_in_flash + binary.len()`; both `u32`
computations panic on overflow/underflow per checked arithmetic. -/
def may_overwrite_ccfg (flash_size binary_offset_in_flash binaryLen : Nat) :
    Except Failure Bool :=
  if flash_size < CCFG_SIZE then
    .error (.panic "attempt to subtract with overflow")
  else if 2 ^ 32 ≤ binary_offset_in_flash + binaryLen then
    .error (.panic "attempt to add with overflow")
  else
    .ok (decide (flash_size - CCFG_SIZE ≤ binary_offset_in_flash + binaryLen))

/-- The `let transfers = ...` block of `flash`: on CC26xx with
`overwrites_ccfg`, `debug_assert!(force)`, then two transfers — the body
without the trailing 88 bytes (with ACKs checked) and the 88-byte CCFG tail at
`start + len - CCFG_SIZE` (ACKs ignored); the slice bound `len - CCFG_SIZE`
and the tail address pass through checked `usize`/`u32` arithmetic.  In every
other case, a single transfer expecting ACKs. -/
def flashTransfers (family : Family) (address : Nat) (binary : List Nat)
    (overwrites_ccfg force : Bool) : Except Failure (List Transfer) :=
  if (family = Family.CC26X0 ∨ family = Family.CC26X2) ∧ overwrites_ccfg then
    if !force then
      .error (.panic "debug assertion failed: args.force")
    else if binary.length < CCFG_SIZE then
      .error (.panic "attempt to subtract with overflow")
    else if 2 ^ 32 ≤ address + binary.length then
      .error (.panic "attempt to add with overflow")
    else
      .ok [{ data := binary.take (binary.length - CCFG_SIZE),
             start_address := address,
             expect_ack := true },
           { data := binary.drop (binary.length - CCFG_SIZE),
             start_address := address + binary.length - CCFG_SIZE,
             expect_ack := false }]
  else
    .ok [{ data := binary, start_address := address, expect_ack := true }]

/-- `flash` (`prog-cli/src/flash.rs`), after argument parsing and file
reading: the size and base-address checks, the CCFG refusal, the optional
pre-erase, the end-address check, the transfer split, and the write. -/
def flash (flash_size address : Nat) (binary : List Nat)
    (write_erase force : Bool) : DevAct Unit := fun d =>
  if flash_size < binary.length then
    (.error (.err "Binary size is too large"), d)
  else if address < d.family.flash_base then
    (.error (.err "Start address out of range"), d)
  else
    match may_overwrite_ccfg flash_size address binary.length with
    | .error e => (.error e, d)
    | .ok overwrites_ccfg =>
      if ((d.family = Family.CC26X0 ∨ d.family = Family.CC26X2) ∧
          overwrites_ccfg ∧ !force) then
        (.error (.err "Binary may overwrite the CCFG, use --force if you want to flash it anyway"), d)
      else
        let erased : Except Failure Unit × Device :=
          if write_erase then
            if overwrites_ccfg ∧ binary.length < CCFG_SIZE then
              (.error (.panic "attempt to subtract with overflow"), d)
            else
              erase_flash_range address
                (if overwrites_ccfg then binary.length - CCFG_SIZE
                 else binary.length) d
          else
            (.ok (), d)
        match erased with
        | (.error e, d') => (.error e, d')
        | (.ok _, d') =>
          if 2 ^ 32 ≤ address + binary.length then
            (.error (.panic "attempt to add with overflow"), d')
          else if 2 ^ 32 ≤ d'.family.flash_base + flash_size then
            (.error (.panic "attempt to add with overflow"), d')
          else if d'.family.flash_base + flash_size < address + binary.length then
            (.error (.err "Binary file is too large for flash"), d')
          else
            match flashTransfers d'.family address binary overwrites_ccfg force with
            | .error e => (.error e, d')
            | .ok transfers => write_flash_range transfers d'

/-! ## Script helpers and operation characterizations

A cooperative device is described by a script: `okAck` is a plain ACK frame,
`statusResp s` is an ACK frame followed by a 1-byte `GetStatus` response with
value `s`, and `memResp c payload` is an ACK frame followed by a response
header and `payload`. -/

/-- The two-byte ACK frame `0x00 0xCC`. -/
def okAck : List Rx := [Rx.byte 0, Rx.byte 0xCC]

/-- ACK frame, then a 1-byte response `[s]` (header `[3, cksum]`; the checksum
byte is not verified by the driver, we script it as `s`). -/
def statusResp (s : Nat) : List Rx :=
  [Rx.byte 0, Rx.byte 0xCC, Rx.byte 3, Rx.byte s, Rx.byte s]

/-- ACK frame, then a response of `payload` (header `[len + 2, c]`). -/
def memResp (c : Nat) (payload : List Nat) : List Rx :=
  Rx.byte 0 :: Rx.byte 0xCC :: Rx.byte (payload.length + 2) :: Rx.byte c ::
    payload.map Rx.byte

theorem readAckLoop_ack (a b : Nat) (rest : List Rx) :
    readAckLoop a b (Rx.byte 0 :: Rx.byte 0xCC :: rest) = (.ok true, rest) := by
  simp [readAckLoop, ACK, NACK]

theorem readAckLoop_nack (a b : Nat) (rest : List Rx) :
    readAckLoop a b (Rx.byte 0 :: Rx.byte 0x33 :: rest) = (.ok false, rest) := by
  simp [readAckLoop, ACK, NACK]

theorem readExact_bytes (l : List Nat) (rest : List Rx) :
    readExact l.length (l.map Rx.byte ++ rest) = (.ok l, rest) := by
  induction l with
  | nil => simp [readExact]
  | cons b bs ih => simp [readExact, ih]

theorem read_ack_ok (fam : Family) (tm : Nat) (wr : List Nat) (fl : Bool)
    (rest : List Rx) (cs : List (Nat × List Nat)) :
    read_ack ⟨fam, ⟨tm, wr, fl, okAck ++ rest⟩, cs⟩ =
      (.ok true, ⟨fam, ⟨tm, wr, fl, rest⟩, cs⟩) := by
  simp [read_ack, okAck, readAckLoop_ack]

theorem read_ack_ok_cons (fam : Family) (tm : Nat) (wr : List Nat) (fl : Bool)
    (rest : List Rx) (cs : List (Nat × List Nat)) :
    read_ack ⟨fam, ⟨tm, wr, fl, Rx.byte 0 :: Rx.byte 0xCC :: rest⟩, cs⟩ =
      (.ok true, ⟨fam, ⟨tm, wr, fl, rest⟩, cs⟩) := by
  simp [read_ack, readAckLoop_ack]


/-- The bytes a command packet puts on the wire:
`[len, checksum, cmd] ++ data`. -/
def cmdPkt (cmd : Nat) (data : List Nat) : List Nat :=
  (3 + data.length) :: command_checksum cmd data :: cmd :: data

theorem write_cmd_ok (cmd : Nat) (data : List Nat) (h : data.length ≤ 252)
    (fam : Family) (tm : Nat) (wr : List Nat) (fl : Bool) (inb : List Rx)
    (cs : List (Nat × List Nat)) :
    write_cmd cmd data ⟨fam, ⟨tm, wr, fl, inb⟩, cs⟩ =
      (.ok (), ⟨fam, ⟨tm, wr ++ cmdPkt cmd data, true, inb⟩,
        cs ++ [(cmd, data)]⟩) := by
  have h' : ¬(255 < 3 + data.length) := by omega
  simp [write_cmd, cmdPkt, Port.write_all, Port.flush, h']

theorem send_data_ok (data : List Nat) (h : data.length ≤ 252)
    (fam : Family) (tm : Nat) (wr : List Nat) (fl : Bool) (rest : List Rx)
    (cs : List (Nat × List Nat)) :
    send_data data ⟨fam, ⟨tm, wr, fl, okAck ++ rest⟩, cs⟩ =
      (.ok true, ⟨fam, ⟨tm, wr ++ cmdPkt CMD_SEND_DATA data, true, rest⟩,
        cs ++ [(CMD_SEND_DATA, data)]⟩) := by
  have h' : ¬(MAX_BYTES_PER_TRANSFER < data.length) := by
    simp only [MAX_BYTES_PER_TRANSFER]; omega
  simp [send_data, h', write_cmd_ok _ _ h, read_ack_ok]

theorem get_status_ok (s : Nat) (fam : Family) (tm : Nat) (wr : List Nat)
    (fl : Bool) (rest : List Rx) (cs : List (Nat × List Nat)) :
    get_status ⟨fam, ⟨tm, wr, fl, statusResp s ++ rest⟩, cs⟩ =
      (.ok s, ⟨fam, ⟨tm, wr ++ cmdPkt CMD_GET_STATUS [] ++ [0, ACK], true, rest⟩,
        cs ++ [(CMD_GET_STATUS, [])]⟩) := by
  simp [get_status, statusResp, write_cmd_ok CMD_GET_STATUS [] (by simp),
    read_ack_ok_cons, read_response, readExact, write_ack, Port.write_all,
    Port.flush, okAck]

theorem download_ok (a s : Nat) (fam : Family) (tm : Nat) (wr : List Nat)
    (fl : Bool) (rest : List Rx) (cs : List (Nat × List Nat)) :
    download a s ⟨fam, ⟨tm, wr, fl, okAck ++ rest⟩, cs⟩ =
      (.ok (), ⟨fam, ⟨tm, wr ++ cmdPkt CMD_DOWNLOAD (be4 a ++ be4 s), true, rest⟩,
        cs ++ [(CMD_DOWNLOAD, be4 a ++ be4 s)]⟩) := by
  simp [download, write_cmd_ok CMD_DOWNLOAD (be4 a ++ be4 s) (by simp [be4]),
    read_ack_ok]

theorem sector_erase_ok (addr : Nat) (fam : Family)
    (hf : fam.supports_sector_erase = true) (ha : addr % fam.sector_size = 0)
    (tm : Nat) (wr : List Nat) (fl : Bool) (rest : List Rx)
    (cs : List (Nat × List Nat)) :
    sector_erase addr ⟨fam, ⟨tm, wr, fl, okAck ++ rest⟩, cs⟩ =
      (.ok (), ⟨fam, ⟨tm, wr ++ cmdPkt CC26X0_CMD_SECTOR_ERASE (be4 addr), true, rest⟩,
        cs ++ [(CC26X0_CMD_SECTOR_ERASE, be4 addr)]⟩) := by
  simp [sector_erase, hf, ha,
    write_cmd_ok CC26X0_CMD_SECTOR_ERASE (be4 addr) (by simp [be4]),
    read_ack_ok]

theorem memory_read_32_ok (addr len c : Nat) (payload : List Nat)
    (fam : Family) (hfam : fam ≠ Family.CC2538) (hlen : len ≤ 63 * 4)
    (hmod : len % 4 = 0) (haddr : addr % 4 = 0) (hpl : payload.length = len)
    (tm : Nat) (wr : List Nat) (fl : Bool) (rest : List Rx)
    (cs : List (Nat × List Nat)) :
    memory_read_32 addr len ⟨fam, ⟨tm, wr, fl, memResp c payload ++ rest⟩, cs⟩ =
      (.ok payload, ⟨fam,
        ⟨tm, wr ++ cmdPkt CMD_MEMORY_READ (be4 addr ++ [1, len / 4]) ++ [0, ACK],
          true, rest⟩,
        cs ++ [(CMD_MEMORY_READ, be4 addr ++ [1, len / 4])]⟩) := by
  subst hpl
  have h1 : ¬(63 * 4 < payload.length) := by omega
  have h2 : ¬(payload.length + 2 < 2) := by omega
  have h3 : payload.length + 2 - 2 = payload.length := by omega
  simp [memory_read_32, memResp, hfam, hmod, haddr, h1, h2, h3,
    write_cmd_ok CMD_MEMORY_READ (be4 addr ++ [1, payload.length / 4]) (by simp [be4]),
    read_ack_ok_cons, read_response, readExact, readExact_bytes, write_ack,
    Port.write_all, Port.flush, okAck]

/-! ## Checksum closed form -/

theorem foldl_mod_sum (l : List Nat) :
    ∀ a : Nat, a < 256 →
      l.foldl (fun checksum byte => (checksum + byte) % 256) a = (a + l.sum) % 256 := by
  induction l with
  | nil => intro a ha; simp [Nat.mod_eq_of_lt ha]
  | cons b bs ih =>
    intro a ha
    have hlt : (a + b) % 256 < 256 := Nat.mod_lt _ (by omega)
    simp only [List.foldl_cons, List.sum_cons, ih _ hlt, Nat.mod_add_mod]
    ring_nf

theorem command_checksum_eq (cmd : Nat) (hc : cmd < 256) (data : List Nat) :
    command_checksum cmd data = (cmd + data.sum) % 256 :=
  foldl_mod_sum data cmd hc

/-- C5: given a command byte and a payload of at most 252 bytes, the framer
emits exactly `[L, K, cmd] ++ data` with `L = 3 + len(data)` and
`K = (cmd + sum data) mod 256`, leaves the transport flushed, and the
concrete checksum of `cmd = 0xCA`, `data = [0xDE, 0xAD, 0xBE, 0xEF]` is
`0x02`. -/
theorem C5_write_cmd_frames (cmd : Nat) (data : List Nat) (hc : cmd < 256)
    (hd : data.length ≤ 252) (d : Device) :
    (write_cmd cmd data d).1 = .ok () ∧
    ((write_cmd cmd data d).2).port.written =
      d.port.written ++ ((3 + data.length) :: (cmd + data.sum) % 256 :: cmd :: data) ∧
    ((write_cmd cmd data d).2).port.flushed = true ∧
    command_checksum 0xCA [0xDE, 0xAD, 0xBE, 0xEF] = 0x02 := by
  obtain ⟨fam, ⟨tm, wr, fl, inb⟩, cs⟩ := d
  refine ⟨?_, ?_, ?_, by decide⟩ <;>
    simp [write_cmd_ok _ _ hd, cmdPkt, command_checksum_eq _ hc]

/-- Witness for `C5_write_cmd_frames` at `cmd = 0xCA`,
`data = [0xDE, 0xAD, 0xBE, 0xEF]`. -/
theorem C5_write_cmd_frames_witness :
    (0xCA : Nat) < 256 ∧
    ([0xDE, 0xAD, 0xBE, 0xEF] : List Nat).length ≤ 252 ∧
    ((write_cmd 0xCA [0xDE, 0xAD, 0xBE, 0xEF]
        ⟨Family.CC26X2, ⟨200, [], true, []⟩, []⟩).2).port.written =
      [] ++ ((3 + 4) :: (0xCA + [0xDE, 0xAD, 0xBE, 0xEF].sum) % 256 :: 0xCA ::
        [0xDE, 0xAD, 0xBE, 0xEF]) :=
  ⟨by decide, by decide,
    (C5_write_cmd_frames 0xCA [0xDE, 0xAD, 0xBE, 0xEF] (by decide) (by decide)
      ⟨Family.CC26X2, ⟨200, [], true, []⟩, []⟩).2.1⟩

/-! ## C8: the constructor and the transport timeout -/

theorem init_communications_timeout (d0 : Device) :
    ((init_communications d0).2).port.timeout_ms = d0.port.timeout_ms := by
  obtain ⟨fam, ⟨tm, wr, fl, inb⟩, cs⟩ := d0
  simp only [init_communications, write_cmd, Port.write_all, Port.flush]
  norm_num
  simp only [read_ack, perform_auto_baud, Port.write_all]
  rcases h : readAckLoop 0xFF 0xFF inb with ⟨res, rest⟩
  cases res with
  | ok a => simp
  | error e =>
    simp only
    rcases h2 : readAckLoop 0xFF 0xFF rest with ⟨res2, rest2⟩
    cases res2 with
    | ok b => cases b <;> simp
    | error e2 => simp

/-- C8 fails on the code: `Device::new` never touches the transport timeout.
Concretely, constructing a device over a port whose timeout is 999 ms succeeds
and leaves the timeout at 999 ms, not 200 ms. -/
theorem C8_counterexample :
    Device.new ⟨999, [], true, [Rx.byte 0, Rx.byte 0xCC]⟩ Family.CC26X2 =
      .ok ⟨Family.CC26X2, ⟨999, [3, 0, 0], true, []⟩, [(0, [])]⟩ ∧
    (999 : Nat) ≠ 200 := ⟨by rfl, by decide⟩

/-- C8 (amended): `Device::new` leaves the transport's read timeout exactly as
it found it; the 200 ms timeout is set by the CLI on the port before
construction. -/
theorem C8_new_preserves_timeout (p : Port) (fam : Family) (d : Device)
    (h : Device.new p fam = .ok d) : d.port.timeout_ms = p.timeout_ms := by
  have ht := init_communications_timeout ⟨fam, p, []⟩
  unfold Device.new at h
  rcases h' : init_communications ⟨fam, p, []⟩ with ⟨res, d2⟩
  rw [h'] at h ht
  cases res with
  | ok a => simp at h; subst h; exact ht
  | error e => simp at h

/-- Witness for `C8_new_preserves_timeout` on a concrete port with a 123 ms
timeout. -/
theorem C8_new_preserves_timeout_witness :
    Device.new ⟨123, [], true, [Rx.byte 0, Rx.byte 0xCC]⟩ Family.CC26X0 =
      .ok ⟨Family.CC26X0, ⟨123, [3, 0, 0], true, []⟩, [(0, [])]⟩ ∧
    (⟨Family.CC26X0, ⟨123, [3, 0, 0], true, []⟩, [(0, [])]⟩ : Device).port.timeout_ms = 123 :=
  ⟨by rfl,
    C8_new_preserves_timeout ⟨123, [], true, [Rx.byte 0, Rx.byte 0xCC]⟩
      Family.CC26X0 _ (by rfl)⟩

/-! ## C6: NACK semantics -/

/-- C6: when the ACK hunt after the command frame yields a NACK, `send_data`
returns it as the boolean `false` (not an error, so the caller can
retransmit), while every other command — `Download`, `GetStatus`, `GetChipId`,
`Erase`, `SectorErase`, `SetXosc`, `MemoryRead32` — turns the NACK into a
failure of that command. -/
theorem C6_nack_semantics (d : Device) (rest : List Rx)
    (h : readAckLoop 0xFF 0xFF d.port.inbound = (.ok false, rest)) :
    (send_data [0] d).1 = .ok false ∧
    (download 0 0 d).1 = .error (.err "COMMAND_DOWNLOAD not acknowledged") ∧
    (get_status d).1 = .error (.err "COMMAND_GET_STATUS not acknowledged") ∧
    (get_chip_id d).1 = .error (.err "bootloader did not acknowledge the command") ∧
    (d.family = Family.CC2538 →
      (erase 0 0 d).1 = .error (.err "failed to erase") ∧
      (set_xosc d).1 = .error (.err "failed to switch to xosc")) ∧
    (d.family = Family.CC26X2 →
      (sector_erase 0 d).1 = .error (.err "failed to erase sector") ∧
      (memory_read_32 0 4 d).1 = .error (.err "failed to read memory")) := by
  obtain ⟨fam, ⟨tm, wr, fl, inb⟩, cs⟩ := d
  simp only [Device.port] at h
  refine ⟨?_, ?_, ?_, ?_, ?_, ?_⟩
  · simp [send_data, MAX_BYTES_PER_TRANSFER, write_cmd_ok CMD_SEND_DATA [0] (by decide),
      read_ack, h]
  · simp [download, write_cmd_ok CMD_DOWNLOAD (be4 0 ++ be4 0) (by decide),
      read_ack, h]
  · simp [get_status, write_cmd_ok CMD_GET_STATUS [] (by decide), read_ack, h]
  · simp [get_chip_id, write_cmd_ok CMD_GET_CHIP_ID [] (by decide), read_ack, h]
  · rintro rfl
    constructor
    · simp [erase, Family.supports_erase,
        write_cmd_ok CC2538_CMD_ERASE (be4 0 ++ be4 0) (by decide), read_ack, h]
    · simp [set_xosc, Family.supports_set_xosc,
        write_cmd_ok CC2538_CMD_SET_XOSC [] (by decide), read_ack, h]
  · rintro rfl
    constructor
    · simp [sector_erase, Family.supports_sector_erase, Family.sector_size,
        write_cmd_ok CC26X0_CMD_SECTOR_ERASE (be4 0) (by decide), read_ack, h]
    · simp [memory_read_32, write_cmd_ok CMD_MEMORY_READ (be4 0 ++ [1, 1]) (by decide),
        read_ack, h]

/-- Witness for `C6_nack_semantics`: a CC2538 device whose script is a single
NACK frame. -/
theorem C6_nack_semantics_witness :
    readAckLoop 0xFF 0xFF [Rx.byte 0, Rx.byte 0x33] = (.ok false, []) ∧
    (send_data [0] ⟨Family.CC2538, ⟨200, [], true, [Rx.byte 0, Rx.byte 0x33]⟩, []⟩).1 =
      .ok false ∧
    (erase 0 0 ⟨Family.CC2538, ⟨200, [], true, [Rx.byte 0, Rx.byte 0x33]⟩, []⟩).1 =
      .error (.err "failed to erase") :=
  ⟨by rfl,
    (C6_nack_semantics ⟨Family.CC2538, ⟨200, [], true, [Rx.byte 0, Rx.byte 0x33]⟩, []⟩
      [] (by rfl)).1,
    ((C6_nack_semantics ⟨Family.CC2538, ⟨200, [], true, [Rx.byte 0, Rx.byte 0x33]⟩, []⟩
      [] (by rfl)).2.2.2.2.1 rfl).1⟩

/-! ## C9: the response-header underflow -/

/-- C9: `read_response` computes the payload length as `header[0] - 2` with
unchecked unsigned subtraction, so a response header whose total-length byte
is 0 or 1 is a panic (also reachable through the public `get_status`,
`get_chip_id` and `memory_read_32`), while with a header byte of at least 2
every buffer/payload length mismatch is an ordinary error, not a panic. -/
theorem C9_read_response_underflow :
    (∀ (d : Device) (n h0 h1 : Nat) (rest : List Rx), h0 < 2 →
      d.port.inbound = Rx.byte h0 :: Rx.byte h1 :: rest →
      (read_response n d).1 = .error (.panic "attempt to subtract with overflow")) ∧
    (∀ (d : Device) (n h0 h1 : Nat) (rest : List Rx), 2 ≤ h0 → n ≠ h0 - 2 →
      d.port.inbound = Rx.byte h0 :: Rx.byte h1 :: rest →
      ∃ m, (read_response n d).1 = .error (.err m)) ∧
    (get_status ⟨Family.CC26X2, ⟨200, [], true,
        [Rx.byte 0, Rx.byte 0xCC, Rx.byte 1, Rx.byte 0]⟩, []⟩).1 =
      .error (.panic "attempt to subtract with overflow") ∧
    (get_chip_id ⟨Family.CC26X2, ⟨200, [], true,
        [Rx.byte 0, Rx.byte 0xCC, Rx.byte 1, Rx.byte 0]⟩, []⟩).1 =
      .error (.panic "attempt to subtract with overflow") ∧
    (memory_read_32 0 4 ⟨Family.CC26X2, ⟨200, [], true,
        [Rx.byte 0, Rx.byte 0xCC, Rx.byte 0, Rx.byte 0]⟩, []⟩).1 =
      .error (.panic "attempt to subtract with overflow") := by
  refine ⟨?_, ?_, by rfl, by rfl, by rfl⟩
  · intro d n h0 h1 rest hlt hinb
    obtain ⟨fam, ⟨tm, wr, fl, inb⟩, cs⟩ := d
    simp only [Device.port] at hinb
    subst hinb
    simp [read_response, readExact, hlt]
  · intro d n h0 h1 rest hge hne hinb
    obtain ⟨fam, ⟨tm, wr, fl, inb⟩, cs⟩ := d
    simp only [Device.port] at hinb
    subst hinb
    have hnlt : ¬(h0 < 2) := by omega
    rcases Nat.lt_or_ge (h0 - 2) n with hc | hc
    · exact ⟨"received response is too small", by simp [read_response, readExact, hnlt, hc]⟩
    · have hc' : n < h0 - 2 := by omega
      have hc'' : ¬(h0 - 2 < n) := by omega
      exact ⟨"received response is too big", by simp [read_response, readExact, hnlt, hc', hc'']⟩

/-- Witness for `C9_read_response_underflow`: header byte 1 with a 5-byte
buffer panics; header byte 9 with a 3-byte buffer errs. -/
theorem C9_read_response_underflow_witness :
    (read_response 5 ⟨Family.CC26X2, ⟨200, [], true, [Rx.byte 1, Rx.byte 0]⟩, []⟩).1 =
      .error (.panic "attempt to subtract with overflow") ∧
    (∃ m, (read_response 3 ⟨Family.CC26X2, ⟨200, [], true, [Rx.byte 9, Rx.byte 0]⟩, []⟩).1 =
      .error (.err m)) :=
  ⟨C9_read_response_underflow.1 ⟨Family.CC26X2, ⟨200, [], true, [Rx.byte 1, Rx.byte 0]⟩, []⟩
      5 1 0 [] (by decide) rfl,
    C9_read_response_underflow.2.1 ⟨Family.CC26X2, ⟨200, [], true, [Rx.byte 9, Rx.byte 0]⟩, []⟩
      3 9 0 [] (by decide) (by decide) rfl⟩

/-! ## C7 and C2: the memory helpers and the CC2538 dead branches -/

/-- C7 and the code disagree on CC2538: `read_flash_size` routes every read
through `Device::memory_read_32`, which panics on CC2538, so the CC2538
size-decoding branch is unreachable; on CC26xx the low byte of the register
at `0x4003002C` is multiplied by the family sector size as described
(`0x14 * 8192 = 163840` on CC26X2, `2 * 4092 = 8184` on CC26X0), with a
single two-header-byte `MemoryRead32` of one word at `0x4003002C`. -/
theorem C7_read_flash_size_eval :
    (read_flash_size ⟨Family.CC2538, ⟨200, [], true,
        memResp 0 [0x14, 0, 0, 0]⟩, []⟩).1 =
      .error (.panic "32-bit memory accesses are only allowed on CC26xx") ∧
    (read_flash_size ⟨Family.CC26X2, ⟨200, [], true,
        memResp 0 [0x14, 0, 0, 0]⟩, []⟩).1 = .ok 163840 ∧
    (read_flash_size ⟨Family.CC26X0, ⟨200, [], true,
        memResp 0 [2, 0, 0, 0]⟩, []⟩).1 = .ok 8184 ∧
    ((read_flash_size ⟨Family.CC26X2, ⟨200, [], true,
        memResp 0 [0x14, 0, 0, 0]⟩, []⟩).2).cmds =
      [(CMD_MEMORY_READ, be4 0x4003002C ++ [1, 1])] :=
  ⟨by rfl, by rfl, by rfl, by rfl⟩

/-- C2 and the code disagree on CC2538: `read_ieee_address` reads both
addresses through `Device::memory_read_32`, which panics on CC2538, so the
CC2538 address constants are dead; on CC26X2, with a flash-size register of
`0x14` (163840 bytes of flash), it returns the two 8-byte buffers read at the
primary address `0x2F0` and the secondary address
`163840 - 88 + 0x20 = 163784`, each as a two-word `MemoryRead32`, after the
flash-size read at `0x4003002C`. -/
theorem C2_read_ieee_address_eval :
    (read_ieee_address ⟨Family.CC2538, ⟨200, [], true, []⟩, []⟩).1 =
      .error (.panic "32-bit memory accesses are only allowed on CC26xx") ∧
    (read_ieee_address ⟨Family.CC26X2, ⟨200, [], true,
        memResp 0 [0x14, 0, 0, 0] ++ memResp 0 [1, 2, 3, 4, 5, 6, 7, 8] ++
          memResp 0 [9, 10, 11, 12, 13, 14, 15, 16]⟩, []⟩).1 =
      .ok ([1, 2, 3, 4, 5, 6, 7, 8], [9, 10, 11, 12, 13, 14, 15, 16]) ∧
    ((read_ieee_address ⟨Family.CC26X2, ⟨200, [], true,
        memResp 0 [0x14, 0, 0, 0] ++ memResp 0 [1, 2, 3, 4, 5, 6, 7, 8] ++
          memResp 0 [9, 10, 11, 12, 13, 14, 15, 16]⟩, []⟩).2).cmds =
      [(CMD_MEMORY_READ, be4 0x4003002C ++ [1, 1]),
       (CMD_MEMORY_READ, be4 0x2F0 ++ [1, 2]),
       (CMD_MEMORY_READ, be4 163784 ++ [1, 2])] :=
  ⟨by rfl, by rfl, by rfl⟩

/-! ## C1: the CCFG split -/

/-- C1 fails on the code for binaries shorter than the 88-byte CCFG: on
CC26X2 with `flash_size = 65536`, `start = 65440` and a 10-byte binary,
`overwrites_ccfg` holds and `force` is set, yet instead of producing two
transfers the orchestrator panics computing `binary.len() - CCFG_SIZE`, with
no command ever issued. -/
theorem C1_counterexample :
    flash 65536 65440 (List.replicate 10 0) false true
        ⟨Family.CC26X2, ⟨200, [], true, []⟩, []⟩ =
      (.error (.panic "attempt to subtract with overflow"),
       ⟨Family.CC26X2, ⟨200, [], true, []⟩, []⟩) := by rfl

/-- C1 (amended): the split decision is the stated pure function of
`(flash_size, start_address, len, family, force)` provided the binary is at
least `CCFG_SIZE` bytes long: `overwrites_ccfg` holds exactly when
`start + len ≥ flash_size - 88`; on CC26xx with `overwrites_ccfg` and `force`
set (and `88 ≤ len`) exactly the two stated transfers are produced, the tail
one with `expect_ack = false`; in every other case a single all-ACK transfer;
and on CC26xx with `overwrites_ccfg` and no `force` the orchestrator refuses
before issuing any command. -/
theorem C1_ccfg_split :
    (∀ fs addr len : Nat, CCFG_SIZE ≤ fs → addr + len < 2 ^ 32 →
      may_overwrite_ccfg fs addr len = .ok (decide (fs - CCFG_SIZE ≤ addr + len))) ∧
    (∀ (fam : Family) (addr : Nat) (binary : List Nat),
      (fam = Family.CC26X0 ∨ fam = Family.CC26X2) → CCFG_SIZE ≤ binary.length →
      addr + binary.length < 2 ^ 32 →
      flashTransfers fam addr binary true true =
        .ok [⟨binary.take (binary.length - CCFG_SIZE), addr, true⟩,
             ⟨binary.drop (binary.length - CCFG_SIZE),
              addr + binary.length - CCFG_SIZE, false⟩]) ∧
    (∀ (fam : Family) (addr : Nat) (binary : List Nat) (ow force : Bool),
      (fam = Family.CC2538 ∨ ow = false) →
      flashTransfers fam addr binary ow force = .ok [⟨binary, addr, true⟩]) ∧
    (∀ (fs addr : Nat) (binary : List Nat) (we : Bool) (d : Device),
      (d.family = Family.CC26X0 ∨ d.family = Family.CC26X2) →
      binary.length ≤ fs → d.family.flash_base ≤ addr → CCFG_SIZE ≤ fs →
      addr + binary.length < 2 ^ 32 → fs - CCFG_SIZE ≤ addr + binary.length →
      flash fs addr binary we false d =
        (.error (.err "Binary may overwrite the CCFG, use --force if you want to flash it anyway"), d)) := by
  refine ⟨?_, ?_, ?_, ?_⟩
  · intro fs addr len hfs hlt
    have h1 : ¬(fs < CCFG_SIZE) := by omega
    have h2 : ¬(4294967296 ≤ addr + len) := by omega
    simp [may_overwrite_ccfg, h1, h2]
  · intro fam addr binary hfam hlen hlt
    have h1 : ¬(binary.length < CCFG_SIZE) := by omega
    have h2 : ¬(4294967296 ≤ addr + binary.length) := by omega
    simp [flashTransfers, hfam, h1, h2]
  · rintro fam addr binary ow force (rfl | rfl)
    · simp [flashTransfers]
    · simp [flashTransfers]
  · intro fs addr binary we d hfam hlen hbase hfs hlt hover
    have h1 : ¬(fs < binary.length) := by omega
    have h2 : ¬(addr < d.family.flash_base) := by omega
    have h3 : ¬(fs < CCFG_SIZE) := by omega
    have h4 : ¬(4294967296 ≤ addr + binary.length) := by omega
    simp [flash, may_overwrite_ccfg, h1, h2, h3, h4, hfam, hover]

set_option maxRecDepth 8000 in
/-- Witness for `C1_ccfg_split` on the spec's scenario 4: CC26X2,
`flash_size = 0x20000`, `start = 0x1FF00`, 256-byte binary, `force` set. -/
theorem C1_ccfg_split_witness :
    may_overwrite_ccfg 0x20000 0x1FF00 256 = .ok true ∧
    flashTransfers Family.CC26X2 0x1FF00 (List.replicate 256 0) true true =
      .ok [⟨(List.replicate 256 0).take 168, 0x1FF00, true⟩,
           ⟨(List.replicate 256 0).drop 168, 0x1FFA8, false⟩] ∧
    flash 0x20000 0x1FF00 (List.replicate 256 0) false false
        ⟨Family.CC26X2, ⟨200, [], true, []⟩, []⟩ =
      (.error (.err "Binary may overwrite the CCFG, use --force if you want to flash it anyway"),
       ⟨Family.CC26X2, ⟨200, [], true, []⟩, []⟩) := by
  refine ⟨?_, ?_, ?_⟩
  · have := C1_ccfg_split.1 0x20000 0x1FF00 256 (by decide) (by decide)
    rw [this]; rfl
  · have := C1_ccfg_split.2.1 Family.CC26X2 0x1FF00 (List.replicate 256 0)
      (Or.inr rfl) (by decide) (by decide)
    rw [this]; rfl
  · exact C1_ccfg_split.2.2.2 0x20000 0x1FF00 (List.replicate 256 0) false
      ⟨Family.CC26X2, ⟨200, [], true, []⟩, []⟩ (Or.inr rfl) (by decide) (by decide)
      (by decide) (by decide) (by decide)

/-! ## C10: pre-erase before the end-address bound -/

/-- C10: the size and base-address checks run before the optional pre-erase
(a binary larger than flash, or a start address under the flash base, fails
with the device untouched), but the end-address bound is checked only after
the pre-erase: on CC26X2 with `flash_size = 16384`, `start = 16384`, a
100-byte binary, write-erase and force, the device receives a `SectorErase`
(and its `GetStatus`) before `flash` fails the end-address check — the failed
operation is not erase-free. -/
theorem C10_bounds_check_order :
    (∀ (fs addr : Nat) (binary : List Nat) (we force : Bool) (d : Device),
      fs < binary.length →
      flash fs addr binary we force d = (.error (.err "Binary size is too large"), d)) ∧
    (∀ (fs addr : Nat) (binary : List Nat) (we force : Bool) (d : Device),
      binary.length ≤ fs → addr < d.family.flash_base →
      flash fs addr binary we force d =
        (.error (.err "Start address out of range"), d)) ∧
    ((flash 16384 16384 (List.replicate 100 0) true true
        ⟨Family.CC26X2, ⟨200, [], true, okAck ++ statusResp 0x40⟩, []⟩).1 =
      .error (.err "Binary file is too large for flash") ∧
    ((flash 16384 16384 (List.replicate 100 0) true true
        ⟨Family.CC26X2, ⟨200, [], true, okAck ++ statusResp 0x40⟩, []⟩).2).cmds =
      [(CC26X0_CMD_SECTOR_ERASE, be4 16384), (CMD_GET_STATUS, [])]) := by
  refine ⟨?_, ?_, by rfl, by rfl⟩
  · intro fs addr binary we force d h
    simp [flash, h]
  · intro fs addr binary we force d h1 h2
    have h1' : ¬(fs < binary.length) := by omega
    simp [flash, h1', h2]

/-- Witness for `C10_bounds_check_order`: a 2-byte binary against a 1-byte
flash fails erase-free, and a CC2538 start address below the flash base fails
erase-free. -/
theorem C10_bounds_check_order_witness :
    flash 1 0 [0, 0] true true ⟨Family.CC26X2, ⟨200, [], true, []⟩, []⟩ =
      (.error (.err "Binary size is too large"),
       ⟨Family.CC26X2, ⟨200, [], true, []⟩, []⟩) ∧
    flash 16384 0 [0, 0] true true ⟨Family.CC2538, ⟨200, [], true, []⟩, []⟩ =
      (.error (.err "Start address out of range"),
       ⟨Family.CC2538, ⟨200, [], true, []⟩, []⟩) :=
  ⟨C10_bounds_check_order.1 1 0 [0, 0] true true _ (by decide),
   C10_bounds_check_order.2.1 16384 0 [0, 0] true true
     ⟨Family.CC2538, ⟨200, [], true, []⟩, []⟩ (by decide) (by decide)⟩

/-- A cooperative erase script: `k` repetitions of an ACK frame followed by a
SUCCESS `GetStatus` response. -/
def eraseOkScript (k : Nat) : List Rx := (List.replicate k (okAck ++ statusResp 0x40)).flatten

/-- The command trace of `n` successful sector-erase iterations starting at
index `i`: each iteration is a `SectorErase` of `start + i * ss` followed by a
`GetStatus`. -/
def eraseTrace (start ss : Nat) : Nat → Nat → List (Nat × List Nat)
  | 0, _ => []
  | n + 1, i =>
    (CC26X0_CMD_SECTOR_ERASE, be4 (start + i * ss)) ::
      (CMD_GET_STATUS, ([] : List Nat)) :: eraseTrace start ss n (i + 1)

theorem eraseSectors_ok (fam : Family) (hf : fam.supports_sector_erase = true)
    (start : Nat) (hal : start % fam.sector_size = 0) (tm : Nat) (rest : List Rx) :
    ∀ (n i : Nat) (wr : List Nat) (fl : Bool) (cs : List (Nat × List Nat)),
      (∀ j, j < i + n → start + j * fam.sector_size < 4294967296) →
      ∃ wr' fl',
        eraseSectors start fam.sector_size n i
            ⟨fam, ⟨tm, wr, fl, eraseOkScript n ++ rest⟩, cs⟩ =
          (.ok (), ⟨fam, ⟨tm, wr', fl', rest⟩,
            cs ++ eraseTrace start fam.sector_size n i⟩) := by
  intro n
  induction n with
  | zero =>
    intro i wr fl cs hb
    exact ⟨wr, fl, by simp [eraseSectors, eraseOkScript, eraseTrace]⟩
  | succ n ih =>
    intro i wr fl cs hb
    have hg : ¬(4294967296 ≤ start + i * fam.sector_size) := by
      have := hb i (by omega); omega
    have hal' : (start + i * fam.sector_size) % fam.sector_size = 0 := by
      simp [Nat.add_mul_mod_self_right, hal]
    have hscript : eraseOkScript (n + 1) ++ rest =
        okAck ++ (statusResp 0x40 ++ (eraseOkScript n ++ rest)) := by
      simp [eraseOkScript, List.replicate_succ]
    have hg' : ¬(2 ^ 32 ≤ start + i * fam.sector_size) := by omega
    rw [hscript]
    simp only [eraseSectors, hg', if_false, sector_erase_ok _ fam hf hal', get_status_ok]
    rw [if_neg (show ¬((64 : Nat) ≠ COMMAND_RET_SUCCESS) by decide)]
    have htr : cs ++ eraseTrace start fam.sector_size (n + 1) i =
        (cs ++ [(CC26X0_CMD_SECTOR_ERASE, be4 (start + i * fam.sector_size))] ++
          [(CMD_GET_STATUS, ([] : List Nat))]) ++ eraseTrace start fam.sector_size n (i + 1) := by
      simp [eraseTrace]
    rw [htr]
    exact ih (i + 1) _ true _ (fun j hj => hb j (by omega))


theorem eraseSectors_abort (fam : Family) (hf : fam.supports_sector_erase = true)
    (start : Nat) (hal : start % fam.sector_size = 0) (tm : Nat) (rest : List Rx)
    (s : Nat) (hs : s ≠ 0x40) :
    ∀ (j n i : Nat) (wr : List Nat) (fl : Bool) (cs : List (Nat × List Nat)),
      j < n →
      (∀ k, k < i + n → start + k * fam.sector_size < 4294967296) →
      (eraseSectors start fam.sector_size n i
          ⟨fam, ⟨tm, wr, fl, eraseOkScript j ++ (okAck ++ (statusResp s ++ rest))⟩, cs⟩).1 =
        .error (.err ("CMD_SECTOR_ERASE failed: `" ++ status_code_to_str s ++ "`")) := by
  intro j
  induction j with
  | zero =>
    intro n i wr fl cs hj hb
    cases n with
    | zero => omega
    | succ m =>
      have hg' : ¬(2 ^ 32 ≤ start + i * fam.sector_size) := by
        have := hb i (by omega); omega
      have hal' : (start + i * fam.sector_size) % fam.sector_size = 0 := by
        simp [Nat.add_mul_mod_self_right, hal]
      have hscript : eraseOkScript 0 ++ (okAck ++ (statusResp s ++ rest)) =
          okAck ++ (statusResp s ++ rest) := by
        simp [eraseOkScript]
      rw [hscript]
      simp only [eraseSectors, hg', if_false, sector_erase_ok _ fam hf hal',
        get_status_ok]
      rw [if_pos (show (s : Nat) ≠ COMMAND_RET_SUCCESS from hs)]
  | succ j ih =>
    intro n i wr fl cs hj hb
    cases n with
    | zero => omega
    | succ m =>
      have hg' : ¬(2 ^ 32 ≤ start + i * fam.sector_size) := by
        have := hb i (by omega); omega
      have hal' : (start + i * fam.sector_size) % fam.sector_size = 0 := by
        simp [Nat.add_mul_mod_self_right, hal]
      have hscript : eraseOkScript (j + 1) ++ (okAck ++ (statusResp s ++ rest)) =
          okAck ++ (statusResp 0x40 ++ (eraseOkScript j ++ (okAck ++ (statusResp s ++ rest)))) := by
        simp [eraseOkScript, List.replicate_succ]
      rw [hscript]
      simp only [eraseSectors, hg', if_false, sector_erase_ok _ fam hf hal',
        get_status_ok]
      rw [if_neg (show ¬((64 : Nat) ≠ COMMAND_RET_SUCCESS) by decide)]
      exact ih m (i + 1) _ true _ (by omega) (fun k hk => hb k (by omega))

theorem eraseTrace_eq (start ss : Nat) :
    ∀ (n i : Nat), eraseTrace start ss n i =
      ((List.range n).map (fun jj =>
        [(CC26X0_CMD_SECTOR_ERASE, be4 (start + (i + jj) * ss)),
         (CMD_GET_STATUS, ([] : List Nat))])).flatten := by
  intro n
  induction n with
  | zero => intro i; simp [eraseTrace]
  | succ n ih =>
    intro i
    rw [List.range_succ_eq_map]
    simp only [List.map_cons, List.flatten_cons, List.map_map, eraseTrace, ih (i + 1)]
    simp only [Nat.add_zero, List.cons_append, List.nil_append]
    have hfe : ((fun jj => [(CC26X0_CMD_SECTOR_ERASE, be4 (start + (i + jj) * ss)),
        (CMD_GET_STATUS, ([] : List Nat))]) ∘ Nat.succ) =
        (fun jj => [(CC26X0_CMD_SECTOR_ERASE, be4 (start + (i + 1 + jj) * ss)),
          (CMD_GET_STATUS, ([] : List Nat))]) := by
      funext jj
      simp only [Function.comp, Nat.succ_eq_add_one]
      have h : i + (jj + 1) = i + 1 + jj := by omega
      rw [h]
    rw [hfe]

theorem supports_erase_false_of_sector (fam : Family)
    (hf : fam.supports_sector_erase = true) : fam.supports_erase = false := by
  cases fam <;> simp_all [Family.supports_erase, Family.supports_sector_erase]

/-- C4: on a family supporting `SectorErase`, with a sector-aligned start
address and a positive byte count fitting flash, `erase_flash_range` issues
exactly `sector_count` `SectorErase` commands — `sector_count` being
`byte_count / sector_size` plus one iff the remainder is nonzero, which equals
`ceil(byte_count / sector_size)` — where the `i`-th one erases
`start_address + i * sector_size` and is followed by a `GetStatus`; the first
non-SUCCESS status aborts with a failure whose message contains the
status-code mnemonic. -/
theorem C4_erase_flash_range (fam : Family) (start byte_count : Nat)
    (hf : fam.supports_sector_erase = true) (hpos : 0 < byte_count)
    (hal : start % fam.sector_size = 0) (hbound : start + byte_count ≤ 2 ^ 32) :
    (∀ (tm : Nat) (wr : List Nat) (fl : Bool) (rest : List Rx)
        (cs : List (Nat × List Nat)),
      ∃ wr' fl',
        erase_flash_range start byte_count
            ⟨fam, ⟨tm, wr, fl,
              eraseOkScript (sectorCount byte_count fam.sector_size) ++ rest⟩, cs⟩ =
          (.ok (), ⟨fam, ⟨tm, wr', fl', rest⟩,
            cs ++ ((List.range (sectorCount byte_count fam.sector_size)).map (fun jj =>
              [(CC26X0_CMD_SECTOR_ERASE, be4 (start + jj * fam.sector_size)),
               (CMD_GET_STATUS, ([] : List Nat))])).flatten⟩)) ∧
    sectorCount byte_count fam.sector_size =
      (byte_count + fam.sector_size - 1) / fam.sector_size ∧
    (∀ (tm : Nat) (wr : List Nat) (fl : Bool) (rest : List Rx)
        (cs : List (Nat × List Nat)) (j s : Nat),
      j < sectorCount byte_count fam.sector_size → s ≠ COMMAND_RET_SUCCESS →
      (erase_flash_range start byte_count
          ⟨fam, ⟨tm, wr, fl,
            eraseOkScript j ++ (okAck ++ (statusResp s ++ rest))⟩, cs⟩).1 =
        .error (.err ("CMD_SECTOR_ERASE failed: `" ++ status_code_to_str s ++ "`"))) := by
  have he := supports_erase_false_of_sector fam hf
  have hb32 : start + byte_count ≤ 4294967296 := by omega
  have hcount : ∀ jj, jj < sectorCount byte_count fam.sector_size →
      start + jj * fam.sector_size < 4294967296 := by
    rcases fam with _ | _ | _
    · simp [Family.supports_sector_erase] at hf
    · intro jj hjj
      simp only [Family.sector_size] at hjj ⊢
      by_cases hmod : byte_count % 4092 = 0 <;>
        simp [sectorCount, hmod] at hjj <;> omega
    · intro jj hjj
      simp only [Family.sector_size] at hjj ⊢
      by_cases hmod : byte_count % 8192 = 0 <;>
        simp [sectorCount, hmod] at hjj <;> omega
  have hceil : sectorCount byte_count fam.sector_size =
      (byte_count + fam.sector_size - 1) / fam.sector_size := by
    rcases fam with _ | _ | _
    · simp [Family.supports_sector_erase] at hf
    · simp only [Family.sector_size]
      by_cases hmod : byte_count % 4092 = 0 <;>
        simp [sectorCount, hmod] <;> omega
    · simp only [Family.sector_size]
      by_cases hmod : byte_count % 8192 = 0 <;>
        simp [sectorCount, hmod] <;> omega
  refine ⟨?_, hceil, ?_⟩
  · intro tm wr fl rest cs
    obtain ⟨wr', fl', h⟩ := eraseSectors_ok fam hf start hal tm rest
      (sectorCount byte_count fam.sector_size) 0 wr fl cs
      (fun j hj => hcount j (by omega))
    refine ⟨wr', fl', ?_⟩
    simp only [erase_flash_range, he, hf, Bool.false_eq_true, if_false, if_true]
    rw [h, eraseTrace_eq]
    simp only [Nat.zero_add]
  · intro tm wr fl rest cs j s hj hs
    have h := eraseSectors_abort fam hf start hal tm rest s hs j
      (sectorCount byte_count fam.sector_size) 0 wr fl cs hj
      (fun k hk => hcount k (by omega))
    simp only [erase_flash_range, he, hf, Bool.false_eq_true, if_false, if_true]
    exact h

/-- Witness for `C4_erase_flash_range` on the spec's scenario 5: CC26X2,
`start = 0`, `byte_count = 16384`, two sectors, plus an abort at the first
sector with status `0x43` (`COMMAND_RET_INVALID_ADR`). -/
theorem C4_erase_flash_range_witness :
    (∃ wr' fl',
      erase_flash_range 0 16384
          ⟨Family.CC26X2, ⟨200, [], true,
            eraseOkScript (sectorCount 16384 Family.CC26X2.sector_size) ++ []⟩, []⟩ =
        (.ok (), ⟨Family.CC26X2, ⟨200, wr', fl', []⟩,
          [] ++ ((List.range (sectorCount 16384 Family.CC26X2.sector_size)).map (fun jj =>
            [(CC26X0_CMD_SECTOR_ERASE, be4 (0 + jj * Family.CC26X2.sector_size)),
             (CMD_GET_STATUS, ([] : List Nat))])).flatten⟩)) ∧
    (erase_flash_range 0 16384
        ⟨Family.CC26X2, ⟨200, [], true,
          eraseOkScript 0 ++ (okAck ++ (statusResp 0x43 ++ []))⟩, []⟩).1 =
      .error (.err ("CMD_SECTOR_ERASE failed: `" ++ status_code_to_str 0x43 ++ "`")) :=
  ⟨(C4_erase_flash_range Family.CC26X2 0 16384 (by decide) (by decide) (by decide)
      (by decide)).1 200 [] true [] [],
   (C4_erase_flash_range Family.CC26X2 0 16384 (by decide) (by decide) (by decide)
      (by decide)).2.2 200 [] true [] [] 0 0x43 (by decide) (by decide)⟩

/-- Fuelled chunking helper (one unit of fuel per 252-byte chunk; callers pass
the list length, which suffices). -/
def chunkListAux : Nat → List Nat → List (List Nat)
  | 0, _ => []
  | _ + 1, [] => []
  | fuel + 1, l => l.take 252 :: chunkListAux fuel (l.drop 252)

/-- The consecutive 252-byte chunks of `l`, in order. -/
def chunkList (l : List Nat) : List (List Nat) := chunkListAux l.length l

/-- A cooperative chunk-loop script: `k` repetitions of an ACK frame, each
followed by a SUCCESS `GetStatus` response when `expect_ack` is set. -/
def chunkScript (ea : Bool) (k : Nat) : List Rx :=
  (List.replicate k (okAck ++ if ea then statusResp 0x40 else [])).flatten

/-- The payloads of the `SendData` commands in a command trace. -/
def sendPayloads (cs : List (Nat × List Nat)) : List (List Nat) :=
  (cs.filter (fun c => c.1 == CMD_SEND_DATA)).map Prod.snd

theorem sendPayloads_append (a b : List (Nat × List Nat)) :
    sendPayloads (a ++ b) = sendPayloads a ++ sendPayloads b := by
  simp [sendPayloads]

theorem sendPayloads_send (data : List Nat) :
    sendPayloads [(CMD_SEND_DATA, data)] = [data] := by
  simp [sendPayloads]

theorem sendPayloads_status : sendPayloads [(CMD_GET_STATUS, ([] : List Nat))] = [] := by
  simp [sendPayloads, CMD_GET_STATUS, CMD_SEND_DATA]

theorem sendPayloads_download (x : List Nat) :
    sendPayloads [(CMD_DOWNLOAD, x)] = [] := by
  simp [sendPayloads, CMD_DOWNLOAD, CMD_SEND_DATA]

theorem chunkListAux_congr :
    ∀ (fuel fuel' : Nat) (l : List Nat), l.length ≤ fuel → l.length ≤ fuel' →
      chunkListAux fuel l = chunkListAux fuel' l := by
  intro fuel
  induction fuel with
  | zero =>
    intro fuel' l h h'
    have : l = [] := List.eq_nil_of_length_eq_zero (by omega)
    subst this
    cases fuel' <;> simp [chunkListAux]
  | succ fuel ih =>
    intro fuel' l h h'
    rcases l with _ | ⟨a, as⟩
    · cases fuel' <;> simp [chunkListAux]
    · rcases fuel' with _ | fuel'
      · simp at h'
      · simp only [chunkListAux]
        rw [ih fuel' ((a :: as).drop 252) (by simp at h ⊢; omega) (by simp at h' ⊢; omega)]

theorem chunkList_cons (l : List Nat) (h : l ≠ []) :
    chunkList l = l.take 252 :: chunkList (l.drop 252) := by
  rcases l with _ | ⟨a, as⟩
  · simp at h
  · show chunkListAux (as.length + 1) (a :: as) = _
    simp only [chunkList, chunkListAux]
    rw [chunkListAux_congr as.length ((a :: as).drop 252).length ((a :: as).drop 252)
      (by simp only [List.length_drop, List.length_cons]; omega) (le_refl _)]

set_option maxRecDepth 2000 in
theorem chunkList_eq_aux :
    ∀ (N : Nat) (l : List Nat), l.length ≤ N →
      chunkList l = (List.range ((l.length + 251) / 252)).map
        (fun i => (l.drop (i * 252)).take 252) := by
  intro N
  induction N with
  | zero =>
    intro l h
    have : l = [] := List.eq_nil_of_length_eq_zero (by omega)
    subst this
    simp [chunkList, chunkListAux]
  | succ N ih =>
    intro l h
    rcases l with _ | ⟨a, as⟩
    · simp [chunkList, chunkListAux]
    · have hne : (a :: as) ≠ [] := by simp
      rw [chunkList_cons _ hne, ih ((a :: as).drop 252) (by simp at h ⊢; omega)]
      have hk : ((a :: as).length + 251) / 252 =
          (((a :: as).drop 252).length + 251) / 252 + 1 := by
        simp only [List.length_drop, List.length_cons]
        omega
      rw [hk, List.range_succ_eq_map]
      simp only [List.map_cons, Nat.zero_mul, List.drop_zero, List.map_map]
      have hfe : ((fun i => List.take 252 (List.drop (i * 252) (a :: as))) ∘ Nat.succ) =
          (fun i => List.take 252 (List.drop (i * 252) (List.drop 252 (a :: as)))) := by
        funext i
        simp only [Function.comp, Nat.succ_eq_add_one, List.drop_drop]
        have h252 : (i + 1) * 252 = 252 + i * 252 := by ring
        rw [h252]
      rw [hfe]

theorem sendChunks_ok (t : Transfer)
    (hsb : t.start_address + t.data.length ≤ 4294967296)
    (fam : Family) (tm : Nat) (rest : List Rx) :
    ∀ (fuel bl off ci : Nat) (wr : List Nat) (fl : Bool) (cs : List (Nat × List Nat)),
      bl ≤ fuel → off + bl = t.data.length →
      ∃ wr' fl' cs',
        sendChunks t fuel bl off ci
            ⟨fam, ⟨tm, wr, fl, chunkScript t.expect_ack ((bl + 251) / 252) ++ rest⟩, cs⟩ =
          (.ok (), ⟨fam, ⟨tm, wr', fl', rest⟩, cs'⟩) ∧
        sendPayloads cs' = sendPayloads cs ++ chunkList (t.data.drop off) := by
  intro fuel
  induction fuel with
  | zero =>
    intro bl off ci wr fl cs hbl hoff
    have hbl0 : bl = 0 := by omega
    subst hbl0
    refine ⟨wr, fl, cs, ?_, ?_⟩
    · simp [sendChunks, chunkScript]
    · have hnil : t.data.drop off = [] := List.drop_eq_nil_of_le (by omega)
      simp [hnil, chunkList, chunkListAux]
  | succ fuel ih =>
    intro bl off ci wr fl cs hbl hoff
    rcases bl with _ | m
    · refine ⟨wr, fl, cs, ?_, ?_⟩
      · simp [sendChunks, chunkScript]
      · have hnil : t.data.drop off = [] := List.drop_eq_nil_of_le (by omega)
        simp [hnil, chunkList, chunkListAux]
    · have hg : ¬(2 ^ 32 ≤ t.start_address + off) := by omega
      have hlen : (t.data.drop off).length = m + 1 := by
        simp only [List.length_drop]; omega
      have hne : t.data.drop off ≠ [] := by
        intro hc; rw [hc] at hlen; simp at hlen
      have hcl : ((t.data.drop off).take (min MAX_BYTES_PER_TRANSFER (m + 1))).length ≤ 252 := by
        simp only [MAX_BYTES_PER_TRANSFER, List.length_take]
        omega
      have hchunk : (t.data.drop off).take (min MAX_BYTES_PER_TRANSFER (m + 1)) =
          (t.data.drop off).take 252 := by
        simp only [MAX_BYTES_PER_TRANSFER]
        rcases le_or_lt (m + 1) 252 with hc | hc
        · rw [Nat.min_eq_right hc, List.take_of_length_le (by omega),
            List.take_of_length_le (by omega)]
        · rw [Nat.min_eq_left (by omega)]
      have hdrop : t.data.drop (off + min MAX_BYTES_PER_TRANSFER (m + 1)) =
          (t.data.drop off).drop 252 := by
        simp only [MAX_BYTES_PER_TRANSFER]
        rcases le_or_lt (m + 1) 252 with hc | hc
        · rw [Nat.min_eq_right hc, List.drop_eq_nil_of_le (by omega),
            @List.drop_eq_nil_of_le _ (t.data.drop off) 252 (by omega)]
        · rw [Nat.min_eq_left (by omega), List.drop_drop]
      have hk : (m + 1 + 251) / 252 =
          (m + 1 - min MAX_BYTES_PER_TRANSFER (m + 1) + 251) / 252 + 1 := by
        simp only [MAX_BYTES_PER_TRANSFER]
        omega
      rcases hea : t.expect_ack with _ | _
      · have hscript : chunkScript false ((m + 1 + 251) / 252) ++ rest =
            okAck ++ (chunkScript false
              ((m + 1 - min MAX_BYTES_PER_TRANSFER (m + 1) + 251) / 252) ++ rest) := by
          rw [hk]
          simp [chunkScript, List.replicate_succ]
        rw [hscript]
        simp only [sendChunks, hg, if_false, send_data_ok _ hcl, hea,
          Bool.false_eq_true]
        obtain ⟨wr', fl', cs', hrec, hpay⟩ :=
          ih (m + 1 - min MAX_BYTES_PER_TRANSFER (m + 1))
            (off + min MAX_BYTES_PER_TRANSFER (m + 1)) (ci + 1)
            (wr ++ cmdPkt CMD_SEND_DATA
              ((t.data.drop off).take (min MAX_BYTES_PER_TRANSFER (m + 1))))
            true
            (cs ++ [(CMD_SEND_DATA,
              (t.data.drop off).take (min MAX_BYTES_PER_TRANSFER (m + 1)))])
            (by omega) (by omega)
        rw [hea] at hrec
        refine ⟨wr', fl', cs', hrec, ?_⟩
        rw [hpay, sendPayloads_append, sendPayloads_send, hdrop, hchunk,
          chunkList_cons _ hne]
        simp
      · have hscript : chunkScript true ((m + 1 + 251) / 252) ++ rest =
            okAck ++ (statusResp 0x40 ++ (chunkScript true
              ((m + 1 - min MAX_BYTES_PER_TRANSFER (m + 1) + 251) / 252) ++ rest)) := by
          rw [hk]
          simp [chunkScript, List.replicate_succ]
        rw [hscript]
        simp only [sendChunks, hg, if_false, send_data_ok _ hcl, hea,
          get_status_ok, Bool.not_true, Bool.false_eq_true, if_false]
        rw [if_neg (show ¬((64 : Nat) ≠ COMMAND_RET_SUCCESS) by decide)]
        obtain ⟨wr', fl', cs', hrec, hpay⟩ :=
          ih (m + 1 - min MAX_BYTES_PER_TRANSFER (m + 1))
            (off + min MAX_BYTES_PER_TRANSFER (m + 1)) (ci + 1)
            (wr ++ cmdPkt CMD_SEND_DATA
              ((t.data.drop off).take (min MAX_BYTES_PER_TRANSFER (m + 1))) ++
              cmdPkt CMD_GET_STATUS [] ++ [0, ACK])
            true
            (cs ++ [(CMD_SEND_DATA,
              (t.data.drop off).take (min MAX_BYTES_PER_TRANSFER (m + 1)))] ++
              [(CMD_GET_STATUS, [])])
            (by omega) (by omega)
        rw [hea] at hrec
        refine ⟨wr', fl', cs', hrec, ?_⟩
        rw [hpay, sendPayloads_append, sendPayloads_append, sendPayloads_send,
          sendPayloads_status, hdrop, hchunk, chunkList_cons _ hne]
        simp

/-- C3: for a transfer whose data is nonempty (and fits the `u32` address
space), `write_flash_range` issues exactly `ceil(len / 252)` `SendData`
commands whose `i`-th payload is the slice `data[i*252 .. min((i+1)*252, len)]`
— consecutive, in order, with no overlap and no gap. -/
theorem C3_write_flash_range (t : Transfer) (hpos : 0 < t.data.length)
    (h32 : t.data.length < 2 ^ 32)
    (hsb : t.start_address + t.data.length ≤ 2 ^ 32)
    (fam : Family) (tm : Nat) (wr : List Nat) (fl : Bool) (rest : List Rx)
    (cs : List (Nat × List Nat)) :
    ∃ wr' fl' cs',
      write_flash_range [t]
          ⟨fam, ⟨tm, wr, fl,
            okAck ++ (statusResp 0x40 ++
              (chunkScript t.expect_ack ((t.data.length + 251) / 252) ++ rest))⟩, cs⟩ =
        (.ok (), ⟨fam, ⟨tm, wr', fl', rest⟩, cs'⟩) ∧
      sendPayloads cs' = sendPayloads cs ++
        (List.range ((t.data.length + 251) / 252)).map
          (fun i => (t.data.drop (i * 252)).take 252) ∧
      (sendPayloads cs').length =
        (sendPayloads cs).length + (t.data.length + 251) / 252 := by
  have hg : ¬(2 ^ 32 ≤ t.data.length) := by omega
  have hsb' : t.start_address + t.data.length ≤ 4294967296 := by omega
  simp only [write_flash_range, hg, if_false, download_ok, get_status_ok]
  rw [if_neg (show ¬((64 : Nat) ≠ COMMAND_RET_SUCCESS) by decide)]
  obtain ⟨wr', fl', cs', hrec, hpay⟩ :=
    sendChunks_ok t hsb' fam tm rest t.data.length t.data.length 0 0
      (wr ++ cmdPkt CMD_DOWNLOAD (be4 t.start_address ++ be4 t.data.length) ++
        cmdPkt CMD_GET_STATUS [] ++ [0, ACK])
      true
      (cs ++ [(CMD_DOWNLOAD, be4 t.start_address ++ be4 t.data.length)] ++
        [(CMD_GET_STATUS, [])])
      (le_refl _) (by omega)
  have hpay2 : sendPayloads cs' = sendPayloads cs ++
      (List.range ((t.data.length + 251) / 252)).map
        (fun i => (t.data.drop (i * 252)).take 252) := by
    rw [hpay, sendPayloads_append, sendPayloads_append, sendPayloads_download,
      sendPayloads_status, List.drop_zero,
      chunkList_eq_aux t.data.length t.data (le_refl _)]
    simp
  refine ⟨wr', fl', cs', ?_, hpay2, ?_⟩
  · rw [hrec]
  · rw [hpay2]
    simp

set_option maxRecDepth 8000 in
/-- Witness for `C3_write_flash_range` on a 253-byte transfer: two `SendData`
commands, of 252 bytes and 1 byte. -/
theorem C3_write_flash_range_witness :
    (0 : Nat) < (List.replicate 253 7).length ∧
    (∃ wr' fl' cs',
      write_flash_range [⟨List.replicate 253 7, 0, true⟩]
          ⟨Family.CC26X2, ⟨200, [], true,
            okAck ++ (statusResp 0x40 ++
              (chunkScript true (((List.replicate 253 7).length + 251) / 252) ++ []))⟩, []⟩ =
        (.ok (), ⟨Family.CC26X2, ⟨200, wr', fl', []⟩, cs'⟩) ∧
      sendPayloads cs' = sendPayloads [] ++
        (List.range (((List.replicate 253 7).length + 251) / 252)).map
          (fun i => ((List.replicate 253 7).drop (i * 252)).take 252) ∧
      (sendPayloads cs').length =
        (sendPayloads ([] : List (Nat × List Nat))).length +
          ((List.replicate 253 7).length + 251) / 252) :=
  ⟨by simp,
    C3_write_flash_range ⟨List.replicate 253 7, 0, true⟩ (by simp)
      (by norm_num) (by norm_num) Family.CC26X2 200 [] true [] []⟩
